import Mathlib

/-!
Verification of the trading-account ledger and day-window cursor of the
`trade_simulator` repository (`src/main_pyplot_version.py`).

Monetary quantities and prices are embedded as exact rationals (`ℚ`); the
Python source performs the same arithmetic on floats.  Dates and stock codes
are opaque strings, carried through unchanged.  The fallible daily-state
recorder (Python raises `ZeroDivisionError` on a zero divisor) is embedded
with `Option`.
-/

/-- A trade record, one dict appended to `trade_history` per successful
`buy`/`sell`.  The Python dict of a buy stores the key `total_cost`, a sell
the key `total_income`; the single field `total` carries whichever the record
has. -/
structure Trade where
  date : String
  type : String
  stock_code : String
  price : ℚ
  amount : ℚ
  total : ℚ
deriving DecidableEq

/-- One dict appended to `daily_state` per `record_daily_state` call. -/
structure DailySnapshot where
  date : String
  price : ℚ
  capital : ℚ
  shares : ℚ
  portfolio_value : ℚ
  daily_return : ℚ
  cumulative_return : ℚ
deriving DecidableEq

/-- The mutable state of the `StockTrader` class. -/
structure StockTrader where
  initial_capital : ℚ
  capital : ℚ
  shares : ℚ
  commission_rate : ℚ
  trade_history : List Trade
  daily_state : List DailySnapshot
deriving DecidableEq

/-- Constructor `StockTrader.__init__`: the Python defaults are
`initial_capital=100000`, `commission_rate=0.0003`. -/
def StockTrader.init (initial_capital commission_rate : ℚ) : StockTrader :=
  { initial_capital := initial_capital
    capital := initial_capital
    shares := 0
    commission_rate := commission_rate
    trade_history := []
    daily_state := [] }

/-- Method `StockTrader.buy`.  Returns the post-state together with the
`(success, message)` pair the Python method returns.  The formatted Chinese
success message interpolates the amounts; only its constant head is kept. -/
def StockTrader.buy (t : StockTrader) (date : String) (price amount : ℚ)
    (stock_code : String) : StockTrader × Bool × String :=
  let total_cost := price * amount * (1 + t.commission_rate)
  if total_cost > t.capital then
    (t, false, "insufficient fund")
  else
    ({ t with
        capital := t.capital - total_cost
        shares := t.shares + amount
        trade_history := t.trade_history ++
          [{ date := date, type := "买入", stock_code := stock_code,
             price := price, amount := amount, total := total_cost }] },
     true, "买入成功")

/-- Method `StockTrader.sell`.  Validates before mutating, as the source does. -/
def StockTrader.sell (t : StockTrader) (date : String) (price amount : ℚ)
    (stock_code : String) : StockTrader × Bool × String :=
  if amount > t.shares then
    (t, false, "股票数量不足，卖出失败")
  else
    let total_income := price * amount * (1 - t.commission_rate)
    ({ t with
        capital := t.capital + total_income
        shares := t.shares - amount
        trade_history := t.trade_history ++
          [{ date := date, type := "卖出", stock_code := stock_code,
             price := price, amount := amount, total := total_income }] },
     true, "卖出成功")

/-- Method `StockTrader.record_daily_state`.  The Python body evaluates
`daily_return` first (dividing by `daily_state[-1]['price']` when the history
is nonempty) and then `cumulative_return` (dividing by `initial_capital`);
either division raises `ZeroDivisionError` on a zero divisor, before any
mutation — embedded here as `none`.  On success it appends one snapshot and
returns `(daily_return, cumulative_return)`. -/
def StockTrader.record_daily_state (t : StockTrader) (date : String)
    (price : ℚ) : Option (StockTrader × ℚ × ℚ) :=
  let portfolio_value := t.capital + t.shares * price
  match t.daily_state.getLast? with
  | none =>
      if t.initial_capital = 0 then none
      else
        let daily_return : ℚ := 0
        let cumulative_return := (portfolio_value / t.initial_capital - 1) * 100
        some ({ t with daily_state := t.daily_state ++
            [{ date := date, price := price, capital := t.capital,
               shares := t.shares, portfolio_value := portfolio_value,
               daily_return := daily_return,
               cumulative_return := cumulative_return }] },
          daily_return, cumulative_return)
  | some prev =>
      if prev.price = 0 then none
      else if t.initial_capital = 0 then none
      else
        let daily_return := (price / prev.price - 1) * 100
        let cumulative_return := (portfolio_value / t.initial_capital - 1) * 100
        some ({ t with daily_state := t.daily_state ++
            [{ date := date, price := price, capital := t.capital,
               shares := t.shares, portfolio_value := portfolio_value,
               daily_return := daily_return,
               cumulative_return := cumulative_return }] },
          daily_return, cumulative_return)

/-- Method `StockTrader.get_current_portfolio_value`. -/
def StockTrader.get_current_portfolio_value (t : StockTrader)
    (current_price : ℚ) : ℚ :=
  t.capital + t.shares * current_price

/-- One ledger-mutating operation, for stating history invariants over
arbitrary operation sequences. -/
inductive LedgerOp where
  | buyOp (date : String) (price amount : ℚ) (stock_code : String)
  | sellOp (date : String) (price amount : ℚ) (stock_code : String)
  | recordOp (date : String) (price : ℚ)

/-- Apply one ledger operation to a trader state (a failed or undefined
operation leaves the state unchanged, as in the source). -/
def applyOp (t : StockTrader) : LedgerOp → StockTrader
  | .buyOp d p a c => (t.buy d p a c).1
  | .sellOp d p a c => (t.sell d p a c).1
  | .recordOp d p =>
      match t.record_daily_state d p with
      | none => t
      | some r => r.1

/-- Button "前进一天" in `main`: advances one day only while strictly before
the last index. -/
def advance_day (current_day total_days : ℤ) : ℤ :=
  if current_day < total_days - 1 then current_day + 1 else current_day

/-- Button "前进一周" in `main`: adds 7, clamped to the last index. -/
def advance_week (current_day total_days : ℤ) : ℤ :=
  let new_day := current_day + 7
  if new_day < total_days then new_day else total_days - 1

/-- Button "前进一月" in `main`: adds 30, clamped to the last index. -/
def advance_month (current_day total_days : ℤ) : ℤ :=
  let new_day := current_day + 30
  if new_day < total_days then new_day else total_days - 1

/-- Lines 346–362 of `main`: clamp the stored `current_day`, compute the
500-bar display window `[start_idx, end_idx)`, and override everything when
fewer than 500 bars exist.  Returns `(start_idx, end_idx, current_day)`. -/
def render_view (current total_days : ℤ) : ℤ × ℤ × ℤ :=
  let current_day := min current (total_days - 1)
  let current_day := max current_day 499
  let start_idx := current_day - 499
  let end_idx := current_day + 1
  let start_idx := max 0 start_idx
  let end_idx := min end_idx total_days
  if total_days < 500 then (0, total_days, total_days - 1)
  else (start_idx, end_idx, current_day)

/-- Line 343 of `main`: initial cursor position. -/
def init_current_day (total_days : ℤ) : ℤ :=
  min 499 (total_days - 1)

/-- C1: whenever `price·quantity·(1+commissionRate) ≤ cash`, `buy` succeeds,
deducts the total cost from cash, adds the quantity to shares, appends
exactly one new Trade record, and leaves cash nonnegative. -/
theorem buy_success_spec (t : StockTrader) (date : String) (price amount : ℚ)
    (stock_code : String)
    (h : price * amount * (1 + t.commission_rate) ≤ t.capital) :
    (t.buy date price amount stock_code).2.1 = true ∧
    (t.buy date price amount stock_code).1.capital =
      t.capital - price * amount * (1 + t.commission_rate) ∧
    (t.buy date price amount stock_code).1.shares = t.shares + amount ∧
    (t.buy date price amount stock_code).1.trade_history =
      t.trade_history ++
        [{ date := date, type := "买入", stock_code := stock_code,
           price := price, amount := amount,
           total := price * amount * (1 + t.commission_rate) }] ∧
    0 ≤ (t.buy date price amount stock_code).1.capital := by
  have hnot : ¬ price * amount * (1 + t.commission_rate) > t.capital :=
    not_lt.mpr h
  simp only [StockTrader.buy, hnot, if_false]
  refine ⟨trivial, trivial, trivial, trivial, ?_⟩
  simpa using sub_nonneg.mpr h

theorem buy_success_spec_witness :
    (10 : ℚ) * 1000 * (1 + (StockTrader.init 100000 (3/10000)).commission_rate)
      ≤ (StockTrader.init 100000 (3/10000)).capital ∧
    (((StockTrader.init 100000 (3/10000)).buy "2024-01-02" 10 1000 "600519").2.1 = true ∧
     ((StockTrader.init 100000 (3/10000)).buy "2024-01-02" 10 1000 "600519").1.capital =
       (StockTrader.init 100000 (3/10000)).capital -
         10 * 1000 * (1 + (StockTrader.init 100000 (3/10000)).commission_rate) ∧
     ((StockTrader.init 100000 (3/10000)).buy "2024-01-02" 10 1000 "600519").1.shares =
       (StockTrader.init 100000 (3/10000)).shares + 1000 ∧
     ((StockTrader.init 100000 (3/10000)).buy "2024-01-02" 10 1000 "600519").1.trade_history =
       (StockTrader.init 100000 (3/10000)).trade_history ++
         [{ date := "2024-01-02", type := "买入", stock_code := "600519",
            price := 10, amount := 1000,
            total := 10 * 1000 * (1 + (StockTrader.init 100000 (3/10000)).commission_rate) }] ∧
     0 ≤ ((StockTrader.init 100000 (3/10000)).buy "2024-01-02" 10 1000 "600519").1.capital) :=
  ⟨by norm_num [StockTrader.init],
   buy_success_spec (StockTrader.init 100000 (3/10000)) "2024-01-02" 10 1000 "600519"
     (by norm_num [StockTrader.init])⟩

/-- A trader fresh from the constructor with the Python default arguments. -/
def trader100k : StockTrader := StockTrader.init 100000 (3/10000)

/-- A trader that holds 1000 shares after the scenario buy of §8. -/
def trader_holding : StockTrader :=
  { trader100k with capital := 89997, shares := 1000 }

/-- C2: whenever the total cost strictly exceeds cash, `buy` fails with the
insufficient-funds message and returns the state completely unchanged. -/
theorem buy_insufficient_funds (t : StockTrader) (date : String)
    (price amount : ℚ) (stock_code : String)
    (h : t.capital < price * amount * (1 + t.commission_rate)) :
    t.buy date price amount stock_code = (t, false, "insufficient fund") := by
  simp [StockTrader.buy, h]

theorem buy_insufficient_funds_witness :
    trader100k.capital < 10 * 100000 * (1 + trader100k.commission_rate) ∧
    trader100k.buy "2024-01-02" 10 100000 "600519" =
      (trader100k, false, "insufficient fund") :=
  ⟨by norm_num [trader100k, StockTrader.init],
   buy_insufficient_funds trader100k "2024-01-02" 10 100000 "600519"
     (by norm_num [trader100k, StockTrader.init])⟩

/-- C3: whenever `quantity ≤ shares`, `sell` succeeds, credits
`price·quantity·(1−commissionRate)` to cash, removes the quantity from
shares, and appends exactly one new Trade record. -/
theorem sell_success_spec (t : StockTrader) (date : String) (price amount : ℚ)
    (stock_code : String) (h : amount ≤ t.shares) :
    (t.sell date price amount stock_code).2.1 = true ∧
    (t.sell date price amount stock_code).1.capital =
      t.capital + price * amount * (1 - t.commission_rate) ∧
    (t.sell date price amount stock_code).1.shares = t.shares - amount ∧
    (t.sell date price amount stock_code).1.trade_history =
      t.trade_history ++
        [{ date := date, type := "卖出", stock_code := stock_code,
           price := price, amount := amount,
           total := price * amount * (1 - t.commission_rate) }] := by
  have hnot : ¬ amount > t.shares := not_lt.mpr h
  simp [StockTrader.sell, hnot]

theorem sell_success_spec_witness :
    (500 : ℚ) ≤ trader_holding.shares ∧
    ((trader_holding.sell "2024-02-01" 12 500 "600519").2.1 = true ∧
     (trader_holding.sell "2024-02-01" 12 500 "600519").1.capital =
       trader_holding.capital + 12 * 500 * (1 - trader_holding.commission_rate) ∧
     (trader_holding.sell "2024-02-01" 12 500 "600519").1.shares =
       trader_holding.shares - 500 ∧
     (trader_holding.sell "2024-02-01" 12 500 "600519").1.trade_history =
       trader_holding.trade_history ++
         [{ date := "2024-02-01", type := "卖出", stock_code := "600519",
            price := 12, amount := 500,
            total := 12 * 500 * (1 - trader_holding.commission_rate) }]) :=
  ⟨by norm_num [trader_holding, trader100k, StockTrader.init],
   sell_success_spec trader_holding "2024-02-01" 12 500 "600519"
     (by norm_num [trader_holding, trader100k, StockTrader.init])⟩

/-- C4: whenever `quantity > shares`, `sell` fails with the
insufficient-shares message and returns the state completely unchanged. -/
theorem sell_insufficient_shares (t : StockTrader) (date : String)
    (price amount : ℚ) (stock_code : String) (h : t.shares < amount) :
    t.sell date price amount stock_code = (t, false, "股票数量不足，卖出失败") := by
  simp [StockTrader.sell, h]

theorem sell_insufficient_shares_witness :
    trader100k.shares < 1 ∧
    trader100k.sell "2024-01-02" 10 1 "600519" =
      (trader100k, false, "股票数量不足，卖出失败") :=
  ⟨by norm_num [trader100k, StockTrader.init],
   sell_insufficient_shares trader100k "2024-01-02" 10 1 "600519"
     (by norm_num [trader100k, StockTrader.init])⟩

/-- C5: `record_daily_state` records and returns `dailyReturnPct = 0` when
the snapshot history is empty, and `(price / previousSnapshot.price − 1)·100`
(from the previous snapshot's raw price) otherwise; in both cases it records
and returns `cumulativeReturnPct = ((cash + shares·price)/initialCapital − 1)·100`,
appending exactly one snapshot. -/
theorem record_daily_state_spec (t : StockTrader) (date : String) (price : ℚ)
    (hcap : t.initial_capital ≠ 0)
    (hprev : ∀ prev, t.daily_state.getLast? = some prev → prev.price ≠ 0) :
    (t.daily_state = [] →
      t.record_daily_state date price =
        some ({ t with daily_state := t.daily_state ++
            [{ date := date, price := price, capital := t.capital,
               shares := t.shares,
               portfolio_value := t.capital + t.shares * price,
               daily_return := 0,
               cumulative_return :=
                 ((t.capital + t.shares * price) / t.initial_capital - 1) * 100 }] },
          0, ((t.capital + t.shares * price) / t.initial_capital - 1) * 100)) ∧
    (∀ prev, t.daily_state.getLast? = some prev →
      t.record_daily_state date price =
        some ({ t with daily_state := t.daily_state ++
            [{ date := date, price := price, capital := t.capital,
               shares := t.shares,
               portfolio_value := t.capital + t.shares * price,
               daily_return := (price / prev.price - 1) * 100,
               cumulative_return :=
                 ((t.capital + t.shares * price) / t.initial_capital - 1) * 100 }] },
          (price / prev.price - 1) * 100,
          ((t.capital + t.shares * price) / t.initial_capital - 1) * 100)) := by
  constructor
  · intro hempty
    simp [StockTrader.record_daily_state, hempty, hcap]
  · intro prev hlast
    have hp : prev.price ≠ 0 := hprev prev hlast
    simp [StockTrader.record_daily_state, hlast, hp, hcap]

theorem record_daily_state_spec_witness :
    trader100k.initial_capital ≠ 0 ∧
    (∀ prev, trader100k.daily_state.getLast? = some prev → prev.price ≠ 0) ∧
    (trader100k.daily_state = [] →
      trader100k.record_daily_state "2024-01-02" 10 =
        some ({ trader100k with daily_state := trader100k.daily_state ++
            [{ date := "2024-01-02", price := 10, capital := trader100k.capital,
               shares := trader100k.shares,
               portfolio_value := trader100k.capital + trader100k.shares * 10,
               daily_return := 0,
               cumulative_return :=
                 ((trader100k.capital + trader100k.shares * 10) /
                   trader100k.initial_capital - 1) * 100 }] },
          0, ((trader100k.capital + trader100k.shares * 10) /
                trader100k.initial_capital - 1) * 100)) :=
  ⟨by norm_num [trader100k, StockTrader.init],
   by intro prev hp; simp [trader100k, StockTrader.init] at hp,
   (record_daily_state_spec trader100k "2024-01-02" 10
      (by norm_num [trader100k, StockTrader.init])
      (by intro prev hp; simp [trader100k, StockTrader.init] at hp)).1⟩

/-- C10: with `initialCapital > 0`, the only way `record_daily_state` hits a
division error is a previous snapshot whose raw price is `0`: the call is
undefined exactly when the history is nonempty and its last snapshot has
price `0`; an empty history or a nonzero previous price makes it
well-defined. -/
theorem record_daily_state_defined_iff (t : StockTrader) (date : String)
    (price : ℚ) (hcap : 0 < t.initial_capital) :
    t.record_daily_state date price = none ↔
      ∃ prev, t.daily_state.getLast? = some prev ∧ prev.price = 0 := by
  cases h : t.daily_state.getLast? with
  | none => simp [StockTrader.record_daily_state, h, hcap.ne']
  | some prev =>
    by_cases hp : prev.price = 0
    · simp [StockTrader.record_daily_state, h, hp]
    · simp [StockTrader.record_daily_state, h, hp, hcap.ne']

theorem record_daily_state_defined_iff_witness :
    0 < trader100k.initial_capital ∧
    (trader100k.record_daily_state "2024-01-02" 10 = none ↔
      ∃ prev, trader100k.daily_state.getLast? = some prev ∧ prev.price = 0) :=
  ⟨by norm_num [trader100k, StockTrader.init],
   record_daily_state_defined_iff trader100k "2024-01-02" 10
     (by norm_num [trader100k, StockTrader.init])⟩

/-- C6: from any cursor position `c ≤ totalDays − 1`, each of the three
advance buttons (1, 7, 30 days) moves the cursor to
`min(c + steps, totalDays − 1)`; no advance ever exceeds `totalDays − 1`,
and at `c = totalDays − 1` every advance is a no-op. -/
theorem advance_clamped (c total : ℤ) (h : c ≤ total - 1) :
    advance_day c total = min (c + 1) (total - 1) ∧
    advance_week c total = min (c + 7) (total - 1) ∧
    advance_month c total = min (c + 30) (total - 1) ∧
    advance_day c total ≤ total - 1 ∧
    advance_week c total ≤ total - 1 ∧
    advance_month c total ≤ total - 1 ∧
    (c = total - 1 →
      advance_day c total = c ∧ advance_week c total = c ∧
      advance_month c total = c) := by
  unfold advance_day advance_week advance_month
  dsimp only
  split_ifs <;> refine ⟨?_, ?_, ?_, ?_, ?_, ?_, ?_⟩ <;> omega

theorem advance_clamped_witness :
    (5 : ℤ) ≤ 10 - 1 ∧
    (advance_day 5 10 = min (5 + 1) (10 - 1) ∧
     advance_week 5 10 = min (5 + 7) (10 - 1) ∧
     advance_month 5 10 = min (5 + 30) (10 - 1) ∧
     advance_day 5 10 ≤ 10 - 1 ∧
     advance_week 5 10 ≤ 10 - 1 ∧
     advance_month 5 10 ≤ 10 - 1 ∧
     ((5 : ℤ) = 10 - 1 →
       advance_day 5 10 = 5 ∧ advance_week 5 10 = 5 ∧
       advance_month 5 10 = 5)) :=
  ⟨by decide, advance_clamped 5 10 (by decide)⟩

/-- C7: for every stored cursor value and total, the rendered view
`(start_idx, end_idx, current_day)` satisfies `end_idx − start_idx ≤ 500`,
`start_idx = max 0 (current_day − 499)`, `end_idx = current_day + 1`
(exclusive); and when fewer than 500 bars exist, the window spans the whole
series (`end_idx − start_idx = totalDays`) and `current_day` is forced to
`totalDays − 1`. -/
theorem visible_window_spec (c total : ℤ) :
    (render_view c total).2.1 - (render_view c total).1 ≤ 500 ∧
    (render_view c total).1 = max 0 ((render_view c total).2.2 - 499) ∧
    (render_view c total).2.1 = (render_view c total).2.2 + 1 ∧
    (total < 500 →
      (render_view c total).2.1 - (render_view c total).1 = total ∧
      (render_view c total).2.2 = total - 1) := by
  unfold render_view
  split_ifs with h <;> dsimp only <;> refine ⟨?_, ?_, ?_, ?_⟩ <;> omega

/-- C9: the ledger performs no validation beyond the cash check: `buy` fails
exactly when `price·quantity·(1+commissionRate) > cash`, so (cash being
nonnegative) a buy of quantity 0 at any price succeeds, appends a Trade
record, and leaves cash and shares numerically unchanged; and `sell` fails
exactly when `quantity > shares`, hence succeeds for every
`quantity ≤ shares` including zero and negative quantities. -/
theorem ledger_no_other_validation (t : StockTrader) (date : String)
    (price amount : ℚ) (stock_code : String) (hcash : 0 ≤ t.capital) :
    ((t.buy date price amount stock_code).2.1 = false ↔
      t.capital < price * amount * (1 + t.commission_rate)) ∧
    (amount = 0 →
      (t.buy date price amount stock_code).2.1 = true ∧
      (t.buy date price amount stock_code).1.capital = t.capital ∧
      (t.buy date price amount stock_code).1.shares = t.shares ∧
      (t.buy date price amount stock_code).1.trade_history =
        t.trade_history ++
          [{ date := date, type := "买入", stock_code := stock_code,
             price := price, amount := amount,
             total := price * amount * (1 + t.commission_rate) }]) ∧
    (∀ a : ℚ, (t.sell date price a stock_code).2.1 = false ↔ t.shares < a) := by
  refine ⟨?_, ?_, ?_⟩
  · by_cases hc : t.capital < price * amount * (1 + t.commission_rate)
    · simp [StockTrader.buy, hc]
    · simp [StockTrader.buy, hc]
  · intro h0
    subst h0
    simp [StockTrader.buy, not_lt.mpr hcash]
  · intro a
    by_cases hs : t.shares < a
    · simp [StockTrader.sell, hs]
    · simp [StockTrader.sell, hs]

theorem ledger_no_other_validation_witness :
    (0 : ℚ) ≤ trader100k.capital ∧
    ((trader100k.buy "2024-01-02" 10 0 "600519").2.1 = true ∧
     (trader100k.buy "2024-01-02" 10 0 "600519").1.capital = trader100k.capital ∧
     (trader100k.buy "2024-01-02" 10 0 "600519").1.shares = trader100k.shares) ∧
    ((trader100k.sell "2024-01-02" 10 (-5) "600519").2.1 = false ↔
      trader100k.shares < -5) := by
  have h := ledger_no_other_validation trader100k "2024-01-02" 10 0 "600519"
    (by norm_num [trader100k, StockTrader.init])
  exact ⟨by norm_num [trader100k, StockTrader.init],
    ⟨(h.2.1 rfl).1, (h.2.1 rfl).2.1, (h.2.1 rfl).2.2.1⟩,
    h.2.2 (-5)⟩

/-- C8 counterexample: the ledger does not enforce at-most-one snapshot per
date — applying `record_daily_state` twice with the same date (as the
surrounding UI does on any rerun that does not advance the day) appends two
snapshots carrying the same date. -/
theorem daily_state_duplicate_dates :
    ((applyOp (applyOp trader100k (.recordOp "2024-01-02" 10))
        (.recordOp "2024-01-02" 10)).daily_state.map DailySnapshot.date) =
      ["2024-01-02", "2024-01-02"] := by
  decide

/-- C8 (amended): the DailySnapshot history is append-only — every ledger
operation (buy, sell, record_daily_state) keeps the existing snapshots as an
unchanged initial segment and appends at most one new snapshot; but
uniqueness of dates and date ordering are not enforced by the ledger. -/
theorem daily_state_append_only (t : StockTrader) (op : LedgerOp) :
    ∃ tail : List DailySnapshot,
      (applyOp t op).daily_state = t.daily_state ++ tail ∧ tail.length ≤ 1 := by
  cases op with
  | buyOp d p a c =>
    unfold applyOp StockTrader.buy
    dsimp only
    split_ifs <;> exact ⟨[], by simp, by simp⟩
  | sellOp d p a c =>
    unfold applyOp StockTrader.sell
    dsimp only
    split_ifs <;> exact ⟨[], by simp, by simp⟩
  | recordOp d p =>
    unfold applyOp StockTrader.record_daily_state
    cases h : t.daily_state.getLast? with
    | none =>
      dsimp only
      split_ifs
      · exact ⟨[], by simp, by simp⟩
      · exact ⟨_, rfl, by simp⟩
    | some prev =>
      dsimp only
      split_ifs
      · exact ⟨[], by simp, by simp⟩
      · exact ⟨[], by simp, by simp⟩
      · exact ⟨_, rfl, by simp⟩
